import Mathlib

/-!
Verification development for the `front_end_portfolio` repository.

Two programs are embedded:
* `src/public/ubuntu.sh` — an interactive provisioning script (input
  collection, package installation with retry, templated config rendering
  with backups, service restarts);
* `src/server/index.js` — a single-endpoint Express mail relay.

Bash strings are modelled as Lean `String`s (lists of characters); the
host filesystem as an association list from paths to file contents; the
run of the script as a list of observable events plus a final filesystem
and exit code. All external outcomes (package database answers,
`apt-get` results, service restart results, the calendar date, the
machine hostname) are supplied by an `Env` record of oracles.
-/

namespace Portfolio

/-! ## Character-level helpers (bash `IFS='.'` splitting and arithmetic) -/

/-- Split a character list at every `'.'`, keeping empty fields, exactly as
bash `IFS='.'` word splitting and `awk -F.` field splitting do on strings
without other IFS characters. -/
def splitDots : List Char → List (List Char)
  | [] => [[]]
  | '.' :: rest => [] :: splitDots rest
  | c :: rest =>
    match splitDots rest with
    | g :: gs => (c :: g) :: gs
    | [] => [[c]]

/-- Split a character list at every newline, for inspecting the lines of a
rendered file. -/
def splitNewlines : List Char → List (List Char)
  | [] => [[]]
  | '\n' :: rest => [] :: splitNewlines rest
  | c :: rest =>
    match splitNewlines rest with
    | g :: gs => (c :: g) :: gs
    | [] => [[c]]

/-- The lines of a rendered file. -/
def fileLines (s : String) : List String := (splitNewlines s.data).map (fun l => ⟨l⟩)

def digitVal (c : Char) : Nat := c.toNat - '0'.toNat

def decimalVal (l : List Char) : Nat := l.foldl (fun a c => 10 * a + digitVal c) 0

def octalVal (l : List Char) : Nat := l.foldl (fun a c => 8 * a + digitVal c) 0

/-- Every character is an octal digit `'0'`–`'7'` (codepoints 48–55). -/
def isOctalDigits (l : List Char) : Bool :=
  l.all (fun c => 48 ≤ c.toNat && c.toNat ≤ 55)

/-- Value of a digit string as a bash arithmetic literal (as evaluated by
`[[ x -le 255 ]]` in `validate_ip`): a literal of two or more digits that
starts with `0` is read in octal, and is an arithmetic *error* (`none`)
when it contains a digit `8` or `9`; anything else is read in decimal. -/
def bashArithValue? (p : List Char) : Option Nat :=
  match p with
  | c :: d :: rest =>
    if c = '0' then
      if isOctalDigits (c :: d :: rest) then some (octalVal (c :: d :: rest)) else none
    else some (decimalVal (c :: d :: rest))
  | l => some (decimalVal l)

/-- One conjunct `[[ ${ip[i]} -le 255 ]]` of `validate_ip`: an arithmetic
error makes the conditional fail (bash returns a nonzero status). -/
def groupLe255 (p : List Char) : Bool :=
  match bashArithValue? p with
  | some v => v ≤ 255
  | none => false

/-- One group of the anchored regex: one to three decimal digits. -/
def basicGroup (p : List Char) : Bool :=
  1 ≤ p.length && p.length ≤ 3 && p.all Char.isDigit

/-- The regex test `[[ $ip =~ ^[0-9]{1,3}\.[0-9]{1,3}\.[0-9]{1,3}\.[0-9]{1,3}$ ]]`
of `validate_ip` (ubuntu.sh line 22): exactly four dot-separated groups of
one to three decimal digits. -/
def matchesQuadRegex (s : String) : Bool :=
  let parts := splitDots s.data
  parts.length == 4 && parts.all basicGroup

/-- `validate_ip` (ubuntu.sh lines 20–32): the anchored regex test, then
`[[ ${ip[0]} -le 255 && ... && ${ip[3]} -le 255 ]]` on the `IFS='.'`-split
groups, each compared as a bash arithmetic literal. -/
def validate_ip (s : String) : Bool :=
  matchesQuadRegex s && (splitDots s.data).all groupLe255

/-- Per-group condition of the amended claim: a group of two or more
digits with a leading `0` must consist of octal digits only (bash reads it
in octal, and any such one-to-three-digit value is automatically ≤ 255);
any other group must have decimal value ≤ 255. -/
def amendedGroupCond (p : List Char) : Bool :=
  if 2 ≤ p.length && p.head? == some '0' then isOctalDigits p
  else decimalVal p ≤ 255

/-- Acceptance predicate written from the amended wording of the claim
about IP validation: four dot-separated one-to-three-digit groups, each
satisfying `amendedGroupCond`. -/
def amendedIpAccept (s : String) : Bool :=
  let parts := splitDots s.data
  parts.length == 4 && parts.all (fun p => basicGroup p && amendedGroupCond p)

/-- The acceptance set stated by the original claim: four dot-separated
one-to-three-digit groups whose *decimal* values are all ≤ 255. -/
def claimedIpAccept (s : String) : Bool :=
  let parts := splitDots s.data
  parts.length == 4 && parts.all (fun p => basicGroup p && decimalVal p ≤ 255)

/-! ## `get_input` (ubuntu.sh lines 37–65)

The operator's successive answers to one prompt are modelled as a list of
strings. `get_input` returns the first accepted value together with the
number of prompts that were issued to obtain it; `none` means the supply
of answers ran out with no accepted value (in bash the loop would keep
prompting). An empty answer is replaced by the default when a nonempty
default exists; a field with no validation function accepts immediately. -/

def get_input : List String → String → Option (String → Bool) → Option (String × Nat)
  | [], _, _ => none
  | i :: rest, dflt, vf =>
    let input := if i = "" && dflt ≠ "" then dflt else i
    match vf with
    | none => some (input, 1)
    | some f =>
      if f input then some (input, 1)
      else
        match get_input rest dflt vf with
        | some (v, n) => some (v, n + 1)
        | none => none

/-! ## The mail relay (src/server/index.js) -/

/-- JSON body of a `POST /api/send-email` request; `none` models an absent
field. -/
structure EmailBody where
  name : Option String
  email : Option String
  message : Option String

/-- JavaScript falsiness of a string-or-absent field, as tested by
`if (!name || !email || !message)`: absent fields and empty strings are
falsy. -/
def falsyField : Option String → Bool
  | none => true
  | some s => s == ""

structure EmailResponse where
  status : Nat
  body : String
  sendAttempts : Nat
deriving DecidableEq

def missingFieldsBody : String := "\x7b \"error\": \"Missing fields\" \x7d"

def successBody : String := "\x7b \"success\": true \x7d"

def failedSendBody : String := "\x7b \"error\": \"Failed to send email\" \x7d"

/-- The `POST /api/send-email` handler (index.js lines 22–41):
reject with 400 when any field is falsy, otherwise attempt exactly one
`sendMail` whose outcome `transportOk` determines a 200 or a 500. -/
def sendEmailHandler (b : EmailBody) (transportOk : Bool) : EmailResponse :=
  if falsyField b.name || falsyField b.email || falsyField b.message then
    ⟨400, missingFieldsBody, 0⟩
  else if transportOk then ⟨200, successBody, 1⟩
  else ⟨500, failedSendBody, 1⟩

/-- Response function written from the amended claim's words: a request
whose three fields are all present *and nonempty* gets a 200 on transport
success and a 500 (after a single send attempt) on transport failure; a
request with an absent or empty field gets a 400 and no send attempt. -/
def expectedEmailResponse (b : EmailBody) (transportOk : Bool) : EmailResponse :=
  match b.name, b.email, b.message with
  | some n, some e, some m =>
    if n ≠ "" ∧ e ≠ "" ∧ m ≠ "" then
      if transportOk then ⟨200, successBody, 1⟩ else ⟨500, failedSendBody, 1⟩
    else ⟨400, missingFieldsBody, 0⟩
  | _, _, _ => ⟨400, missingFieldsBody, 0⟩

/-! ## The ProvisioningRequest (the six prompted values, ubuntu.sh lines 103–109) -/

structure ProvisioningRequest where
  ipAddress : String
  domain : String
  mysqlRootPassword : String
  phpMyAdminPassword : String
  sambaUsername : String
  sambaPassword : String
deriving DecidableEq

/-! ## `awk -F.` field extraction (ubuntu.sh lines 177 and 235) -/

/-- `awk -F. '\x7bprint $n\x7d'` on a string: the `n`-th dot-separated
field (1-based), empty when there are fewer than `n` fields. -/
def awkDotField (s : String) (n : Nat) : String :=
  ⟨(((splitDots s.data).drop (n - 1)).headD [])⟩

/-- `reversed_ip=$(echo "$user_ip" | awk -F. '\x7bprint $3"."$2"."$1\x7d')`. -/
def reversed_ip (ip : String) : String :=
  awkDotField ip 3 ++ "." ++ awkDotField ip 2 ++ "." ++ awkDotField ip 1

/-- `octet=$(echo "$user_ip" | awk -F. '\x7bprint $4\x7d')`. -/
def lastOctet (ip : String) : String := awkDotField ip 4

/-! ## Rendered file contents (the heredocs of ubuntu.sh, verbatim) -/

/-- `/etc/resolv.conf` heredoc (lines 169–174). -/
def resolvConfContent (req : ProvisioningRequest) : String :=
  "nameserver " ++ req.ipAddress ++ "\n" ++
  "nameserver 8.8.8.8\n" ++
  "search " ++ req.domain ++ "\n" ++
  "options edns0 trust-ad\n"

/-- `/etc/bind/named.conf.default-zones` heredoc (lines 179–211). -/
def zoneDefsContent (req : ProvisioningRequest) : String :=
  String.intercalate "\n"
    ["# Default zones",
     "zone \"localhost\" \x7b",
     "    type master;",
     "    file \"/etc/bind/db.local\";",
     "\x7d;",
     "",
     "zone \"127.in-addr.arpa\" \x7b",
     "    type master;",
     "    file \"/etc/bind/db.127\";",
     "\x7d;",
     "",
     "zone \"0.in-addr.arpa\" \x7b",
     "    type master;",
     "    file \"/etc/bind/db.0\";",
     "\x7d;",
     "",
     "zone \"255.in-addr.arpa\" \x7b",
     "    type master;",
     "    file \"/etc/bind/db.255\";",
     "\x7d;",
     "",
     "# Custom SMK zones",
     "zone \"" ++ req.domain ++ "\" \x7b",
     "     type master;",
     "     file \"/etc/bind/smk.db\";",
     " \x7d;",
     "",
     "zone \"" ++ reversed_ip req.ipAddress ++ ".in-addr.arpa\" \x7b",
     "     type master;",
     "     file \"/etc/bind/smk.ip\";",
     " \x7d;"] ++ "\n"

/-- `/etc/bind/smk.db` heredoc (lines 214–232); `date` is the run's
`$(date +%Y%m%d)`. -/
def forwardZoneContent (req : ProvisioningRequest) (date : String) : String :=
  String.intercalate "\n"
    ["$TTL    604800",
     "@       IN      SOA     ns." ++ req.domain ++ ". root." ++ req.domain ++ ". (",
     "                        " ++ date ++ "01 ; Serial",
     "                        604800    ; Refresh",
     "                        86400     ; Retry",
     "                        2419200   ; Expire",
     "                        604800 )  ; Negative Cache TTL",
     ";",
     "@       IN      NS      ns." ++ req.domain ++ ".",
     "@       IN      MX 10   " ++ req.domain ++ ".",
     "@       IN      A       " ++ req.ipAddress,
     "ns      IN      A       " ++ req.ipAddress,
     "www     IN      CNAME   ns",
     "mail    IN      CNAME   ns",
     "ftp     IN      CNAME   ns",
     "ntp     IN      CNAME   ns",
     "proxy   IN      CNAME   ns"] ++ "\n"

/-- `/etc/bind/smk.ip` heredoc (lines 236–246). -/
def reverseZoneContent (req : ProvisioningRequest) (date : String) : String :=
  String.intercalate "\n"
    ["@       IN      SOA     ns." ++ req.domain ++ ". root." ++ req.domain ++ ". (",
     "                        " ++ date ++ "01 ; Serial",
     "                        604800    ; Refresh",
     "                        86400     ; Retry",
     "                        2419200   ; Expire",
     "                        604800 )  ; Negative Cache TTL",
     ";",
     "@       IN      NS      ns." ++ req.domain ++ ".",
     lastOctet req.ipAddress ++ "  IN      PTR     ns." ++ req.domain ++ "."] ++ "\n"

/-- `/etc/apache2/sites-available/000-default.conf` heredoc (lines 249–264). -/
def vhostContent (req : ProvisioningRequest) : String :=
  String.intercalate "\n"
    ["<VirtualHost " ++ req.ipAddress ++ ":80>",
     "        ServerAdmin admin@" ++ req.domain,
     "        ServerName www." ++ req.domain,
     "        DocumentRoot /var/www",
     "        ErrorLog $\x7bAPACHE_LOG_DIR\x7d/error.log",
     "        LogLevel warn",
     "        CustomLog $\x7bAPACHE_LOG_DIR\x7d/access.log combined",
     "        ",
     "        <Directory /var/www/>",
     "                Options Indexes FollowSymLinks",
     "                AllowOverride All",
     "                Require all granted",
     "        </Directory>",
     "</VirtualHost>"] ++ "\n"

/-- `/var/www/index.php` heredoc (lines 268–283). -/
def indexPhpContent (req : ProvisioningRequest) : String :=
  String.intercalate "\n"
    ["<!DOCTYPE html>",
     "<html>",
     "<head>",
     "    <title>Welcome to " ++ req.domain ++ "</title>",
     "    <style>",
     "        body \x7b font-family: Arial, sans-serif; margin: 40px; \x7d",
     "        h1 \x7b color: #333; \x7d",
     "    </style>",
     "</head>",
     "<body>",
     "    <h1>Welcome to the " ++ req.domain ++ " Server</h1>",
     "    <?php phpinfo(); ?>",
     "</body>",
     "</html>"] ++ "\n"

/-- `/etc/samba/smb.conf` heredoc (lines 294–311); `hostname` is the run's
`$(hostname)`. -/
def smbConfContent (req : ProvisioningRequest) (hostname : String) : String :=
  String.intercalate "\n"
    ["[global]",
     "   workgroup = WORKGROUP",
     "   server string = Samba Server %v",
     "   netbios name = " ++ hostname,
     "   security = user",
     "   map to guest = bad user",
     "   dns proxy = no",
     "",
     "[www]",
     "   path = /var/www/",
     "   browseable = yes",
     "   writeable = yes",
     "   valid users = " ++ req.sambaUsername,
     "   create mask = 0644",
     "   directory mask = 0755",
     "   force user = www-data"] ++ "\n"

/-! ## Host filesystem and observable events -/

/-- The host filesystem: an association list from absolute paths to file
contents; the most recent write of a path is the head-most entry. -/
abbrev Fs := List (String × String)

def fsRead : Fs → String → Option String
  | [], _ => none
  | (k, v) :: rest, p => if k = p then some v else fsRead rest p

def fsWrite (fs : Fs) (p c : String) : Fs := (p, c) :: fs

/-- `>>` appending (ubuntu.sh line 317): a missing file is created. -/
def fsAppend (fs : Fs) (p c : String) : Fs :=
  fsWrite fs p ((fsRead fs p).getD "" ++ c)

/-- Observable steps of a provisioning run. `prompt f n` records that
field `f` was collected after `n` prompts; `mutate` is any host mutation
other than a config-file write or backup. -/
inductive Event where
  | prompt (field : String) (tries : Nat)
  | mutate (action : String)
  | installAttempt (pkg : String) (attempt : Nat)
  | sleep (units : Nat)
  | backup (src dst : String)
  | write (path content : String)
  | warn (msg : String)
  | fatal (msg : String)
  | restart (svc : String)
  | enable (svc : String)
deriving DecidableEq

/-- `backup_config` (ubuntu.sh lines 74–79): when `p` exists, copy it to
`p ++ ".backup." ++ ts` where `ts` is the run's `$(date +%Y%m%d_%H%M%S)`;
otherwise do nothing. -/
def backupConfig (ts p : String) (fs : Fs) : Fs × List Event :=
  match fsRead fs p with
  | some c => (fsWrite fs (p ++ ".backup." ++ ts) c, [Event.backup p (p ++ ".backup." ++ ts)])
  | none => (fs, [])

/-- The four files passed to `backup_config` by `main`
(ubuntu.sh lines 163–166). -/
def backedUpPaths : List String :=
  ["/etc/resolv.conf", "/etc/bind/named.conf.default-zones",
   "/etc/apache2/sites-available/000-default.conf", "/etc/samba/smb.conf"]

/-- The Config Renderer portion of `main` (ubuntu.sh lines 163–322):
the four `backup_config` calls, then every file write and host mutation
through the Apache module enabling, in source order. Returns the final
filesystem and the event list. -/
def renderStage (req : ProvisioningRequest) (date hostname ts : String) (fs0 : Fs) :
    Fs × List Event :=
  let b1 := backupConfig ts "/etc/resolv.conf" fs0
  let b2 := backupConfig ts "/etc/bind/named.conf.default-zones" b1.1
  let b3 := backupConfig ts "/etc/apache2/sites-available/000-default.conf" b2.1
  let b4 := backupConfig ts "/etc/samba/smb.conf" b3.1
  let fs1 := fsWrite b4.1 "/etc/resolv.conf" (resolvConfContent req)
  let fs2 := fsWrite fs1 "/etc/bind/named.conf.default-zones" (zoneDefsContent req)
  let fs3 := fsWrite fs2 "/etc/bind/smk.db" (forwardZoneContent req date)
  let fs4 := fsWrite fs3 "/etc/bind/smk.ip" (reverseZoneContent req date)
  let fs5 := fsWrite fs4 "/etc/apache2/sites-available/000-default.conf" (vhostContent req)
  let fs6 := fsWrite fs5 "/var/www/index.php" (indexPhpContent req)
  let fs7 := fsWrite fs6 "/etc/samba/smb.conf" (smbConfContent req hostname)
  let fs8 := fsAppend fs7 "/etc/apache2/apache2.conf" "Include /etc/phpmyadmin/apache.conf\n"
  (fs8,
   b1.2 ++ b2.2 ++ b3.2 ++ b4.2 ++
   [Event.write "/etc/resolv.conf" (resolvConfContent req),
    Event.write "/etc/bind/named.conf.default-zones" (zoneDefsContent req),
    Event.write "/etc/bind/smk.db" (forwardZoneContent req date),
    Event.write "/etc/bind/smk.ip" (reverseZoneContent req date),
    Event.write "/etc/apache2/sites-available/000-default.conf" (vhostContent req),
    Event.mutate "mkdir -p /var/www",
    Event.write "/var/www/index.php" (indexPhpContent req),
    Event.mutate "chown -R www-data:www-data /var/www/",
    Event.mutate "find /var/www/ -type d chmod 755",
    Event.mutate "find /var/www/ -type f chmod 644",
    Event.mutate ("useradd -m " ++ req.sambaUsername),
    Event.mutate ("passwd " ++ req.sambaUsername),
    Event.write "/etc/samba/smb.conf" (smbConfContent req hostname),
    Event.mutate ("smbpasswd -a " ++ req.sambaUsername),
    Event.mutate "append phpmyadmin include to /etc/apache2/apache2.conf",
    Event.mutate "a2ensite 000-default.conf",
    Event.mutate "a2enmod rewrite",
    Event.mutate "a2enmod ssl"])

/-! ## The provisioning pipeline (`main`, ubuntu.sh lines 99–341) -/

/-- Oracles for everything the script observes about its host: the
operator's successive answers to each of the six prompts, the outcomes of
the package-manager commands, the package database, the per-attempt
`apt-get install` outcomes, the calendar date, the backup timestamp, the
hostname, the initial filesystem, and the service-manager and
config-syntax-check outcomes. -/
structure Env where
  isRoot : Bool
  ipInputs : List String
  domainInputs : List String
  mysqlPwInputs : List String
  phpPwInputs : List String
  sambaUserInputs : List String
  sambaPwInputs : List String
  dpkgFixOk : Bool
  updateOk : Bool
  updateRetryOk : Bool
  upgradeOk : Bool
  upgradeRetryOk : Bool
  addRepoOk : Bool
  installed : String → Bool
  installOk : String → Nat → Bool
  date : String
  timeStamp : String
  hostname : String
  fs0 : Fs
  restartOk : String → Bool
  enableOk : String → Bool
  apacheTestOk : Bool
  namedTestOk : Bool

/-- The Input Collector (ubuntu.sh lines 103–109): the six `get_input`
calls in source order — only the IP prompt has a validation function, and
every default is empty. Returns the events and, when every prompt was
answered acceptably, the assembled request. -/
def collectStage (env : Env) : List Event × Option ProvisioningRequest :=
  match get_input env.ipInputs "" (some validate_ip) with
  | none => ([], none)
  | some (ip, n1) =>
    match get_input env.domainInputs "" none with
    | none => ([Event.prompt "ip_address" n1], none)
    | some (dom, n2) =>
      match get_input env.mysqlPwInputs "" none with
      | none => ([Event.prompt "ip_address" n1, Event.prompt "domain" n2], none)
      | some (mpw, n3) =>
        match get_input env.phpPwInputs "" none with
        | none => ([Event.prompt "ip_address" n1, Event.prompt "domain" n2,
                    Event.prompt "mysql_root_password" n3], none)
        | some (ppw, n4) =>
          match get_input env.sambaUserInputs "" none with
          | none => ([Event.prompt "ip_address" n1, Event.prompt "domain" n2,
                      Event.prompt "mysql_root_password" n3,
                      Event.prompt "phpmyadmin_password" n4], none)
          | some (suser, n5) =>
            match get_input env.sambaPwInputs "" none with
            | none => ([Event.prompt "ip_address" n1, Event.prompt "domain" n2,
                        Event.prompt "mysql_root_password" n3,
                        Event.prompt "phpmyadmin_password" n4,
                        Event.prompt "samba_username" n5], none)
            | some (spw, n6) =>
              ([Event.prompt "ip_address" n1, Event.prompt "domain" n2,
                Event.prompt "mysql_root_password" n3,
                Event.prompt "phpmyadmin_password" n4,
                Event.prompt "samba_username" n5,
                Event.prompt "samba_password" n6],
               some ⟨ip, dom, mpw, ppw, suser, spw⟩)

/-- System preparation (ubuntu.sh lines 111–150): `dpkg --configure -a`
(fatal on failure), apt cache cleaning, `apt-get update` with a
lock-clearing retry (fatal when the retry also fails), `apt-get upgrade`
with a retry (fatal when the retry also fails), `add-apt-repository`
(fatal on failure), then the six `debconf-set-selections` calls. -/
def systemPrepStage (env : Env) : List Event × Bool :=
  if !env.dpkgFixOk then
    ([Event.mutate "dpkg --configure -a", Event.fatal "Failed to fix interrupted dpkg"], false)
  else
    let e0 : List Event :=
      [Event.mutate "dpkg --configure -a", Event.mutate "apt-get clean",
       Event.mutate "apt-get autoremove -y", Event.mutate "apt-get autoclean"]
    let updEvents : List Event :=
      [Event.mutate "apt-get update -y", Event.warn "Update failed, attempting fixes",
       Event.mutate "rm -f /var/lib/apt/lists/lock",
       Event.mutate "rm -f /var/cache/apt/archives/lock",
       Event.mutate "rm -f /var/lib/dpkg/lock*",
       Event.mutate "dpkg --configure -a", Event.mutate "apt-get update -y"]
    let upd : List Event × Bool :=
      if env.updateOk then ([Event.mutate "apt-get update -y"], true)
      else if env.updateRetryOk then (updEvents, true)
      else (updEvents ++ [Event.fatal "Failed to update system"], false)
    if !upd.2 then (e0 ++ upd.1, false)
    else
      let upgEvents : List Event :=
        [Event.mutate "apt-get upgrade -y", Event.warn "Upgrade failed, attempting fixes",
         Event.mutate "dpkg --configure -a", Event.mutate "apt-get upgrade -y"]
      let upg : List Event × Bool :=
        if env.upgradeOk then ([Event.mutate "apt-get upgrade -y"], true)
        else if env.upgradeRetryOk then (upgEvents, true)
        else (upgEvents ++ [Event.fatal "Failed to upgrade system"], false)
      if !upg.2 then (e0 ++ upd.1 ++ upg.1, false)
      else if !env.addRepoOk then
        (e0 ++ upd.1 ++ upg.1 ++
         [Event.mutate "add-apt-repository universe -y",
          Event.fatal "Failed to add universe repository"], false)
      else
        (e0 ++ upd.1 ++ upg.1 ++
         [Event.mutate "add-apt-repository universe -y",
          Event.mutate "debconf-set-selections mysql-server root_password",
          Event.mutate "debconf-set-selections mysql-server root_password_again",
          Event.mutate "debconf-set-selections phpmyadmin dbconfig-install",
          Event.mutate "debconf-set-selections phpmyadmin admin-pass",
          Event.mutate "debconf-set-selections phpmyadmin app-pass",
          Event.mutate "debconf-set-selections phpmyadmin reconfigure-webserver"], true)

/-- The retry loop of `install_package` (ubuntu.sh lines 87–95), starting
at attempt number `attempt` with the given number of attempts remaining:
each failed attempt is followed by `sleep 5`; running out of attempts
emits the `handle_error` event. Returns the events and whether the
installation succeeded. -/
def installAttemptsFrom (pkg : String) (ok : Nat → Bool) (attempt : Nat) :
    Nat → List Event × Bool
  | 0 => ([Event.fatal ("Failed to install " ++ pkg ++ " after max attempts")], false)
  | remaining + 1 =>
    if ok attempt then ([Event.installAttempt pkg attempt], true)
    else
      let r := installAttemptsFrom pkg ok (attempt + 1) remaining
      (Event.installAttempt pkg attempt :: Event.sleep 5 :: r.1, r.2)

/-- `install_package` (ubuntu.sh lines 82–97): `max_attempts=3`, starting
at attempt 1. -/
def install_package (pkg : String) (ok : Nat → Bool) : List Event × Bool :=
  installAttemptsFrom pkg ok 1 3

/-- The fixed package list (ubuntu.sh line 153). -/
def packages : List String :=
  ["bind9", "apache2", "mysql-server", "apache2-utils", "phpmyadmin", "samba"]

/-- The package loop (ubuntu.sh lines 154–160): skip a package the package
database reports installed; otherwise run `dpkg --configure -a` and then
`install_package`, whose fatal failure ends the whole run. -/
def packageLoop (installed : String → Bool) (ok : String → Nat → Bool) :
    List String → List Event × Bool
  | [] => ([], true)
  | p :: rest =>
    if installed p then packageLoop installed ok rest
    else
      let r := install_package p (ok p)
      if r.2 then
        let next := packageLoop installed ok rest
        (Event.mutate "dpkg --configure -a" :: r.1 ++ next.1, next.2)
      else (Event.mutate "dpkg --configure -a" :: r.1, false)

/-- The fixed managed-service list (ubuntu.sh line 325). -/
def services : List String := ["bind9", "apache2", "mysql", "smbd"]

/-- The service loop (ubuntu.sh lines 326–329): restart then enable each
service; each failure only logs a warning. -/
def serviceLoop (restartOk enableOk : String → Bool) : List String → List Event
  | [] => []
  | s :: rest =>
    (Event.restart s :: (if restartOk s then [] else [Event.warn ("Failed to restart " ++ s)])) ++
    (Event.enable s :: (if enableOk s then [] else [Event.warn ("Failed to enable " ++ s)])) ++
    serviceLoop restartOk enableOk rest

/-- The two read-only config syntax checks (ubuntu.sh lines 332–334):
failures only log warnings. -/
def configTestStage (env : Env) : List Event :=
  (if env.apacheTestOk then [] else [Event.warn "Apache config test failed"]) ++
  (if env.namedTestOk then [] else [Event.warn "BIND config test failed"])

/-- The whole run of `main`: privilege check, Input Collector, system
preparation, Package Installer, Config Renderer, Service Reconciler,
config tests. Returns the event trace, the final filesystem, and the exit
code (`none` when the run is blocked forever on an interactive prompt). -/
def runScript (env : Env) : List Event × Fs × Option Nat :=
  if !env.isRoot then ([Event.fatal "Script must be run with sudo"], env.fs0, some 1)
  else
    match collectStage env with
    | (evs, none) => (evs, env.fs0, none)
    | (evs, some req) =>
      let prep := systemPrepStage env
      if !prep.2 then (evs ++ prep.1, env.fs0, some 1)
      else
        let pkgs := packageLoop env.installed env.installOk packages
        if !pkgs.2 then (evs ++ prep.1 ++ pkgs.1, env.fs0, some 1)
        else
          let rend := renderStage req env.date env.hostname env.timeStamp env.fs0
          (evs ++ prep.1 ++ pkgs.1 ++ rend.2 ++
             serviceLoop env.restartOk env.enableOk services ++ configTestStage env,
           rend.1, some 0)

/-! ## Event classification -/

def isWriteEvent : Event → Bool
  | Event.write _ _ => true
  | _ => false

def hasWrite (evs : List Event) : Bool := evs.any isWriteEvent

def isFatalEvent : Event → Bool
  | Event.fatal _ => true
  | _ => false

def hasFatal (evs : List Event) : Bool := evs.any isFatalEvent

/-- Events that mutate host state: package-manager actions, filesystem
writes and backups, install attempts, service restarts and enables.
Prompts, log warnings, fatal-error logs and sleeps mutate nothing. -/
def isMutationEvent : Event → Bool
  | Event.mutate _ => true
  | Event.write _ _ => true
  | Event.backup _ _ => true
  | Event.installAttempt _ _ => true
  | Event.restart _ => true
  | Event.enable _ => true
  | _ => false

def prompted (field : String) (evs : List Event) : Bool :=
  evs.any fun e =>
    match e with
    | Event.prompt f _ => f == field
    | _ => false

def promptedAllSix (evs : List Event) : Bool :=
  prompted "ip_address" evs && prompted "domain" evs &&
  prompted "mysql_root_password" evs && prompted "phpmyadmin_password" evs &&
  prompted "samba_username" evs && prompted "samba_password" evs

/-- The `(path, content)` pairs of the write events of a trace. -/
def writesOf (evs : List Event) : List (String × String) :=
  evs.filterMap fun e =>
    match e with
    | Event.write p c => some (p, c)
    | _ => none

/-! ## General helper lemmas -/

theorem append_ne_of_mismatch (pre t : String)
    (h : ¬ pre.data.isPrefixOf t.data) : ∀ ts : String, pre ++ ts ≠ t := by
  intro ts he
  apply h
  have hd : pre.data ++ ts.data = t.data := by
    rw [← String.data_append, he]
  rw [List.isPrefixOf_iff_prefix]
  exact ⟨ts.data, hd⟩

theorem append_right_ne (a b : String) (h : a.length ≠ b.length) :
    ∀ ts : String, a ++ ts ≠ b ++ ts := by
  intro ts he
  apply h
  have hl := congrArg String.length he
  rw [String.length_append, String.length_append] at hl
  omega

theorem all_implies {α : Type} (l : List α) (p q : α → Bool)
    (h : ∀ e, p e = true → q e = true) (hl : l.all p = true) : l.all q = true := by
  simp only [List.all_eq_true] at hl ⊢
  exact fun e he => h e (hl e he)

theorem any_eq_false_of_all {α : Type} (l : List α) (p q : α → Bool)
    (h : ∀ e, p e = true → q e = false) (hl : l.all p = true) : l.any q = false := by
  simp only [List.all_eq_true] at hl
  simp only [List.any_eq_false]
  intro e he
  simp [h e (hl e he)]

theorem fsRead_fsWrite_same (fs : Fs) (p c : String) :
    fsRead (fsWrite fs p c) p = some c := by
  simp [fsRead, fsWrite]

theorem fsRead_fsWrite_ne (fs : Fs) (p c q : String) (h : q ≠ p) :
    fsRead (fsWrite fs p c) q = fsRead fs q := by
  simp [fsRead, fsWrite, Ne.symm h]

theorem fsRead_backupConfig_ne (ts q : String) (fs : Fs) (P : String)
    (h : P ≠ q ++ ".backup." ++ ts) :
    fsRead (backupConfig ts q fs).1 P = fsRead fs P := by
  unfold backupConfig
  cases hq : fsRead fs q <;> simp [hq, fsRead_fsWrite_ne _ _ _ _ h]

theorem fsRead_backupConfig_self (ts p : String) (fs : Fs) (c : String)
    (h : fsRead fs p = some c) :
    fsRead (backupConfig ts p fs).1 (p ++ ".backup." ++ ts) = some c := by
  unfold backupConfig
  simp [h, fsRead_fsWrite_same]

/-! ## Lemmas on IP validation (claim C2) -/

theorem digitVal_le_seven (c : Char) (h : (48 ≤ c.toNat && c.toNat ≤ 55) = true) :
    digitVal c ≤ 7 := by
  simp only [Bool.and_eq_true, decide_eq_true_eq] at h
  unfold digitVal
  have : '0'.toNat = 48 := rfl
  omega

theorem groupLe255_eq_amended (p : List Char) (h1 : 1 ≤ p.length) (h3 : p.length ≤ 3) :
    groupLe255 p = amendedGroupCond p := by
  rcases p with _ | ⟨a, _ | ⟨b, _ | ⟨c, rest⟩⟩⟩
  · simp at h1
  · by_cases ha : a = '0' <;>
      simp [groupLe255, bashArithValue?, amendedGroupCond, ha]
  · by_cases ha : a = '0'
    · subst ha
      simp only [groupLe255, bashArithValue?, amendedGroupCond, if_pos rfl]
      cases hoct : isOctalDigits ['0', b] with
      | false => simp [hoct]
      | true =>
        have hb : digitVal b ≤ 7 := by
          apply digitVal_le_seven
          simp only [isOctalDigits, List.all_cons, List.all_nil, Bool.and_eq_true] at hoct
          simp [hoct.2.1]
        have hv : octalVal ['0', b] ≤ 255 := by
          simp only [octalVal, List.foldl]
          have h0 : digitVal '0' = 0 := rfl
          omega
        simp [hoct, hv]
    · simp [groupLe255, bashArithValue?, amendedGroupCond, ha]
  · rcases rest with _ | ⟨d, rest'⟩
    · by_cases ha : a = '0'
      · subst ha
        simp only [groupLe255, bashArithValue?, amendedGroupCond, if_pos rfl]
        cases hoct : isOctalDigits ['0', b, c] with
        | false => simp [hoct]
        | true =>
          have hbc : digitVal b ≤ 7 ∧ digitVal c ≤ 7 := by
            simp only [isOctalDigits, List.all_cons, List.all_nil, Bool.and_eq_true] at hoct
            exact ⟨digitVal_le_seven b (by simp [hoct.2.1]),
                   digitVal_le_seven c (by simp [hoct.2.2.1])⟩
          have hv : octalVal ['0', b, c] ≤ 255 := by
            simp only [octalVal, List.foldl]
            have h0 : digitVal '0' = 0 := rfl
            omega
          simp [hoct, hv]
      · simp [groupLe255, bashArithValue?, amendedGroupCond, ha]
    · simp at h3

theorem all_groups_eq (parts : List (List Char))
    (hb : parts.all basicGroup = true) :
    parts.all groupLe255 = parts.all (fun p => basicGroup p && amendedGroupCond p) := by
  induction parts with
  | nil => rfl
  | cons p t ih =>
    simp only [List.all_cons, Bool.and_eq_true] at hb
    have hbp := hb.1
    have hlen : 1 ≤ p.length ∧ p.length ≤ 3 := by
      simp only [basicGroup, Bool.and_eq_true, decide_eq_true_eq] at hbp
      exact ⟨hbp.1.1, hbp.1.2⟩
    have he := groupLe255_eq_amended p hlen.1 hlen.2
    simp only [List.all_cons, he, hbp, Bool.true_and, ih hb.2]

theorem validate_ip_eq_amended (s : String) : validate_ip s = amendedIpAccept s := by
  unfold validate_ip amendedIpAccept matchesQuadRegex
  cases h4 : (splitDots s.data).length == 4 with
  | false => simp [h4]
  | true =>
    simp only [h4, Bool.true_and]
    cases hb : (splitDots s.data).all basicGroup with
    | false =>
      simp only [hb, Bool.false_and]
      symm
      rw [List.all_eq_false] at hb ⊢
      obtain ⟨x, hx, hpx⟩ := hb
      exact ⟨x, hx, by simp [hpx]⟩
    | true => simp only [hb, Bool.true_and, all_groups_eq _ hb]

theorem get_input_invalid_head (bad : String) (rest : List String)
    (h : validate_ip bad = false) :
    get_input (bad :: rest) "" (some validate_ip) =
      (get_input rest "" (some validate_ip)).map (fun v => (v.1, v.2 + 1)) := by
  simp only [get_input]
  have hinput : (if bad = "" && ("" : String) ≠ "" then "" else bad) = bad := by
    simp
  rw [hinput, h]
  cases hr : get_input rest "" (some validate_ip) with
  | none => simp
  | some v => cases v with | mk a b => simp

/-! ## Claim C2 — IP validation -/

/-- C2, counterexample: `"192.168.1.08"` is four dot-separated
one-to-three-digit groups with decimal values 192, 168, 1, 8, all ≤ 255,
so the claim says `validate_ip` accepts it — but the bash arithmetic
comparison reads the leading-zero group `08` in octal, which is an error,
and `validate_ip` rejects the string. -/
theorem C2_counterexample :
    claimedIpAccept "192.168.1.08" = true ∧ validate_ip "192.168.1.08" = false := by
  decide

/-- C2, amended: `validate_ip` accepts exactly the strings of four
dot-separated one-to-three-digit groups in which every group with a
leading zero and two or more digits consists of octal digits only and
every other group has decimal value ≤ 255; and on a rejected answer
`get_input` re-prompts, never returning the rejected value. -/
theorem C2_validate_ip_amended :
    (∀ s, validate_ip s = amendedIpAccept s) ∧
    (∀ bad rest, validate_ip bad = false →
      get_input (bad :: rest) "" (some validate_ip) =
        (get_input rest "" (some validate_ip)).map (fun v => (v.1, v.2 + 1))) :=
  ⟨validate_ip_eq_amended, get_input_invalid_head⟩

/-- Witness for C2: after the rejected answer `"192.168.1.08"` the
collector re-prompts and accepts `"10.0.0.1"` on the second try. -/
theorem C2_witness :
    get_input ["192.168.1.08", "10.0.0.1"] "" (some validate_ip) = some ("10.0.0.1", 2) := by
  rw [C2_validate_ip_amended.2 "192.168.1.08" ["10.0.0.1"] (by decide)]
  decide

/-! ## Claim C5 — end-to-end reverse-zone scenario -/

def reqC5 : ProvisioningRequest :=
  ⟨"192.168.1.10", "example.com", "mysqlpw", "phppw", "smbuser", "smbpw"⟩

/-- C5: for IP `192.168.1.10` and domain `example.com`, the reverse-zone
block in the zone definitions file is named from the first three octets
reversed (`1.168.192.in-addr.arpa`), and the rendered reverse zone file
keys its PTR record on the last octet `10`. -/
theorem C5_reverse_zone_scenario :
    reversed_ip "192.168.1.10" = "1.168.192" ∧
    lastOctet "192.168.1.10" = "10" ∧
    "zone \"1.168.192.in-addr.arpa\" \x7b" ∈ fileLines (zoneDefsContent reqC5) ∧
    "10  IN      PTR     ns.example.com." ∈ fileLines (reverseZoneContent reqC5 "20251012") := by
  decide

/-! ## Claims C6 and C9 — the mail-relay endpoint -/

/-- C6, counterexample: a request in which all three fields are present
and the transport would succeed, yet the response is 400 with no send
attempted, because the `message` field is the empty string — contradicting
the claim that presence of all fields plus transport success yields 200. -/
theorem C6_counterexample :
    (sendEmailHandler ⟨some "A", some "a@b.com", some ""⟩ true).status = 400 ∧
    (sendEmailHandler ⟨some "A", some "a@b.com", some ""⟩ true).sendAttempts = 0 := by
  decide

/-- C6, amended: if any field is absent *or empty* the response is 400
`Missing fields` with no send attempted; if all three fields are present
and nonempty, exactly one send is attempted, a transport success yields
200 `success: true`, and a transport failure yields 500
`Failed to send email` with no retry. -/
theorem C6_handler_amended (b : EmailBody) (ok : Bool) :
    sendEmailHandler b ok = expectedEmailResponse b ok := by
  obtain ⟨n, e, m⟩ := b
  cases n with
  | none => cases e <;> cases m <;> simp [sendEmailHandler, expectedEmailResponse, falsyField]
  | some ns =>
    cases e with
    | none => cases m <;> simp [sendEmailHandler, expectedEmailResponse, falsyField]
    | some es =>
      cases m with
      | none => simp [sendEmailHandler, expectedEmailResponse, falsyField]
      | some ms =>
        by_cases hn : ns = "" <;> by_cases he : es = "" <;> by_cases hm : ms = "" <;>
          simp [sendEmailHandler, expectedEmailResponse, falsyField, hn, he, hm]

/-- C9: a request whose three fields are all present but at least one of
them empty gets a 400 `Missing fields` and no send attempt — the falsiness
check treats empty strings like absent fields. -/
theorem C9_empty_fields_rejected (n e m : String) (ok : Bool)
    (h : n = "" ∨ e = "" ∨ m = "") :
    sendEmailHandler ⟨some n, some e, some m⟩ ok = ⟨400, missingFieldsBody, 0⟩ := by
  rcases h with rfl | rfl | rfl <;> simp [sendEmailHandler, falsyField]

/-- Witness for C9 at the concrete request `⟨"", "a@b.com", "hi"⟩`. -/
theorem C9_witness :
    sendEmailHandler ⟨some "", some "a@b.com", some "hi"⟩ true =
      ⟨400, missingFieldsBody, 0⟩ :=
  C9_empty_fields_rejected "" "a@b.com" "hi" true (Or.inl rfl)

/-! ## Claim C10 — prompts without validation accept empty input -/

/-- C10: every prompted field without a validation function and without a
default (domain, the three passwords, the Samba username) accepts an empty
operator answer immediately — one prompt, value the empty string — so the
assembled request can carry empty domain and credentials. -/
theorem C10_no_validation_empty_accepted (env : Env) (ip : String) (n : Nat)
    (t2 t3 t4 t5 t6 : List String)
    (hip : get_input env.ipInputs "" (some validate_ip) = some (ip, n))
    (h2 : env.domainInputs = "" :: t2) (h3 : env.mysqlPwInputs = "" :: t3)
    (h4 : env.phpPwInputs = "" :: t4) (h5 : env.sambaUserInputs = "" :: t5)
    (h6 : env.sambaPwInputs = "" :: t6) :
    collectStage env =
      ([Event.prompt "ip_address" n, Event.prompt "domain" 1,
        Event.prompt "mysql_root_password" 1, Event.prompt "phpmyadmin_password" 1,
        Event.prompt "samba_username" 1, Event.prompt "samba_password" 1],
       some ⟨ip, "", "", "", "", ""⟩) := by
  unfold collectStage
  rw [hip, h2, h3, h4, h5, h6]
  simp [get_input]

def envC10 : Env :=
  ⟨true, ["1.2.3.4"], [""], [""], [""], [""], [""],
   true, true, true, true, true, true,
   fun _ => true, fun _ _ => true,
   "20251012", "20251012_090000", "ubuntu", [],
   fun _ => true, fun _ => true, true, true⟩

/-- Witness for C10: with valid IP input and empty answers to the five
unvalidated prompts, collection succeeds in one prompt per field with
empty domain and credentials. -/
theorem C10_witness :
    collectStage envC10 =
      ([Event.prompt "ip_address" 1, Event.prompt "domain" 1,
        Event.prompt "mysql_root_password" 1, Event.prompt "phpmyadmin_password" 1,
        Event.prompt "samba_username" 1, Event.prompt "samba_password" 1],
       some ⟨"1.2.3.4", "", "", "", "", ""⟩) :=
  C10_no_validation_empty_accepted envC10 "1.2.3.4" 1 [] [] [] [] []
    (by decide) rfl rfl rfl rfl rfl

/-! ## Lemmas on the Config Renderer (claims C1 and C4) -/

theorem writesOf_append (l₁ l₂ : List Event) :
    writesOf (l₁ ++ l₂) = writesOf l₁ ++ writesOf l₂ := by
  simp [writesOf, List.filterMap_append]

theorem writesOf_backupConfig (ts p : String) (fs : Fs) :
    writesOf (backupConfig ts p fs).2 = [] := by
  unfold backupConfig
  cases h : fsRead fs p <;> simp [h, writesOf]

/-- The write events of the Config Renderer: the seven rendered files with
their contents, in source order, independent of the backup timestamp and
of the initial filesystem. -/
theorem renderStage_writes (req : ProvisioningRequest) (date hostname ts : String) (fs0 : Fs) :
    writesOf (renderStage req date hostname ts fs0).2 =
      [("/etc/resolv.conf", resolvConfContent req),
       ("/etc/bind/named.conf.default-zones", zoneDefsContent req),
       ("/etc/bind/smk.db", forwardZoneContent req date),
       ("/etc/bind/smk.ip", reverseZoneContent req date),
       ("/etc/apache2/sites-available/000-default.conf", vhostContent req),
       ("/var/www/index.php", indexPhpContent req),
       ("/etc/samba/smb.conf", smbConfContent req hostname)] := by
  simp only [renderStage]
  rw [writesOf_append, writesOf_append, writesOf_append, writesOf_append]
  rw [writesOf_backupConfig, writesOf_backupConfig, writesOf_backupConfig, writesOf_backupConfig]
  simp [writesOf]

/-- Reading any path other than the eight written paths from the rendered
filesystem passes through to the post-backup filesystem. -/
theorem renderStage_fsRead_old (req : ProvisioningRequest) (date hostname ts : String)
    (fs0 : Fs) (P : String)
    (h1 : P ≠ "/etc/resolv.conf") (h2 : P ≠ "/etc/bind/named.conf.default-zones")
    (h3 : P ≠ "/etc/bind/smk.db") (h4 : P ≠ "/etc/bind/smk.ip")
    (h5 : P ≠ "/etc/apache2/sites-available/000-default.conf")
    (h6 : P ≠ "/var/www/index.php") (h7 : P ≠ "/etc/samba/smb.conf")
    (h8 : P ≠ "/etc/apache2/apache2.conf") :
    fsRead (renderStage req date hostname ts fs0).1 P =
      fsRead (backupConfig ts "/etc/samba/smb.conf"
        (backupConfig ts "/etc/apache2/sites-available/000-default.conf"
          (backupConfig ts "/etc/bind/named.conf.default-zones"
            (backupConfig ts "/etc/resolv.conf" fs0).1).1).1).1 P := by
  simp only [renderStage, fsAppend]
  rw [fsRead_fsWrite_ne _ _ _ _ h8, fsRead_fsWrite_ne _ _ _ _ h7,
      fsRead_fsWrite_ne _ _ _ _ h6, fsRead_fsWrite_ne _ _ _ _ h5,
      fsRead_fsWrite_ne _ _ _ _ h4, fsRead_fsWrite_ne _ _ _ _ h3,
      fsRead_fsWrite_ne _ _ _ _ h2, fsRead_fsWrite_ne _ _ _ _ h1]

/-! ## Claim C1 — backups before overwrite -/

set_option maxRecDepth 40000 in
/-- C1, counterexample: with a pre-existing `/etc/bind/smk.db`, the run
overwrites it with the freshly rendered forward zone — losing the original
content — and the final filesystem holds no path starting with
`/etc/bind/smk.db.backup.`: zone data files are never backed up. -/
theorem C1_counterexample :
    fsRead (renderStage reqC5 "20251012" "ubuntu" "20251012_090000"
        [("/etc/bind/smk.db", "OLD ZONE DATA")]).1 "/etc/bind/smk.db" =
      some (forwardZoneContent reqC5 "20251012") ∧
    forwardZoneContent reqC5 "20251012" ≠ "OLD ZONE DATA" ∧
    (renderStage reqC5 "20251012" "ubuntu" "20251012_090000"
        [("/etc/bind/smk.db", "OLD ZONE DATA")]).1.all
      (fun e => !(("/etc/bind/smk.db.backup.").data.isPrefixOf e.1.data)) = true := by
  decide

/-- C1, amended: of the seven files the run writes, exactly the four
passed to `backup_config` — resolver config, zone definitions, web vhost,
file-share config — are backed up first: when such a file pre-exists, its
original content is preserved at `<original>.backup.<timestamp>`. The two
zone data files and the landing page are overwritten without backup. -/
theorem C1_backup_preserves (req : ProvisioningRequest) (date hostname ts : String)
    (fs0 : Fs) (p : String) (hp : p ∈ backedUpPaths) (c : String)
    (hc : fsRead fs0 p = some c) :
    fsRead (renderStage req date hostname ts fs0).1 (p ++ ".backup." ++ ts) = some c := by
  have hmem : p = "/etc/resolv.conf" ∨ p = "/etc/bind/named.conf.default-zones" ∨
      p = "/etc/apache2/sites-available/000-default.conf" ∨ p = "/etc/samba/smb.conf" := by
    simpa [backedUpPaths] using hp
  rcases hmem with rfl | rfl | rfl | rfl
  · rw [renderStage_fsRead_old _ _ _ _ _ _
        (append_ne_of_mismatch _ _ (by decide) ts) (append_ne_of_mismatch _ _ (by decide) ts)
        (append_ne_of_mismatch _ _ (by decide) ts) (append_ne_of_mismatch _ _ (by decide) ts)
        (append_ne_of_mismatch _ _ (by decide) ts) (append_ne_of_mismatch _ _ (by decide) ts)
        (append_ne_of_mismatch _ _ (by decide) ts) (append_ne_of_mismatch _ _ (by decide) ts)]
    rw [fsRead_backupConfig_ne _ _ _ _ (append_right_ne _ _ (by decide) ts),
        fsRead_backupConfig_ne _ _ _ _ (append_right_ne _ _ (by decide) ts),
        fsRead_backupConfig_ne _ _ _ _ (append_right_ne _ _ (by decide) ts)]
    exact fsRead_backupConfig_self ts _ fs0 c hc
  · rw [renderStage_fsRead_old _ _ _ _ _ _
        (append_ne_of_mismatch _ _ (by decide) ts) (append_ne_of_mismatch _ _ (by decide) ts)
        (append_ne_of_mismatch _ _ (by decide) ts) (append_ne_of_mismatch _ _ (by decide) ts)
        (append_ne_of_mismatch _ _ (by decide) ts) (append_ne_of_mismatch _ _ (by decide) ts)
        (append_ne_of_mismatch _ _ (by decide) ts) (append_ne_of_mismatch _ _ (by decide) ts)]
    rw [fsRead_backupConfig_ne _ _ _ _ (append_right_ne _ _ (by decide) ts),
        fsRead_backupConfig_ne _ _ _ _ (append_right_ne _ _ (by decide) ts)]
    refine fsRead_backupConfig_self ts _ _ c ?_
    rw [fsRead_backupConfig_ne _ _ _ _ ((append_ne_of_mismatch _ _ (by decide) ts).symm)]
    exact hc
  · rw [renderStage_fsRead_old _ _ _ _ _ _
        (append_ne_of_mismatch _ _ (by decide) ts) (append_ne_of_mismatch _ _ (by decide) ts)
        (append_ne_of_mismatch _ _ (by decide) ts) (append_ne_of_mismatch _ _ (by decide) ts)
        (append_ne_of_mismatch _ _ (by decide) ts) (append_ne_of_mismatch _ _ (by decide) ts)
        (append_ne_of_mismatch _ _ (by decide) ts) (append_ne_of_mismatch _ _ (by decide) ts)]
    rw [fsRead_backupConfig_ne _ _ _ _ (append_right_ne _ _ (by decide) ts)]
    refine fsRead_backupConfig_self ts _ _ c ?_
    rw [fsRead_backupConfig_ne _ _ _ _ ((append_ne_of_mismatch _ _ (by decide) ts).symm),
        fsRead_backupConfig_ne _ _ _ _ ((append_ne_of_mismatch _ _ (by decide) ts).symm)]
    exact hc
  · rw [renderStage_fsRead_old _ _ _ _ _ _
        (append_ne_of_mismatch _ _ (by decide) ts) (append_ne_of_mismatch _ _ (by decide) ts)
        (append_ne_of_mismatch _ _ (by decide) ts) (append_ne_of_mismatch _ _ (by decide) ts)
        (append_ne_of_mismatch _ _ (by decide) ts) (append_ne_of_mismatch _ _ (by decide) ts)
        (append_ne_of_mismatch _ _ (by decide) ts) (append_ne_of_mismatch _ _ (by decide) ts)]
    refine fsRead_backupConfig_self ts _ _ c ?_
    rw [fsRead_backupConfig_ne _ _ _ _ ((append_ne_of_mismatch _ _ (by decide) ts).symm),
        fsRead_backupConfig_ne _ _ _ _ ((append_ne_of_mismatch _ _ (by decide) ts).symm),
        fsRead_backupConfig_ne _ _ _ _ ((append_ne_of_mismatch _ _ (by decide) ts).symm)]
    exact hc

/-- Witness for C1 at a concrete pre-existing resolver config. -/
theorem C1_witness :
    fsRead (renderStage reqC5 "20251012" "ubuntu" "20251012_090000"
        [("/etc/resolv.conf", "old resolv contents")]).1
      ("/etc/resolv.conf" ++ ".backup." ++ "20251012_090000") = some "old resolv contents" :=
  C1_backup_preserves reqC5 "20251012" "ubuntu" "20251012_090000"
    [("/etc/resolv.conf", "old resolv contents")] "/etc/resolv.conf" (by decide)
    "old resolv contents" rfl

/-! ## Claim C4 — renderer determinism -/

set_option maxRecDepth 40000 in
/-- C4, counterexample: two renders of the same request on the same
calendar date, on a host whose hostname differs between the runs, produce
different bytes for the file-share config (which embeds `$(hostname)`) —
so the SOA serial's date component is not the only run-varying input. -/
theorem C4_counterexample :
    writesOf (renderStage reqC5 "20251012" "hostA" "20251012_090000" []).2 ≠
    writesOf (renderStage reqC5 "20251012" "hostB" "20251012_100000" []).2 := by
  decide

/-- C4, amended: for a fixed request, rendered content depends only on the
calendar date and the machine hostname — two renders with the same date
and hostname produce byte-identical content for every rendered file, even
with different backup timestamps and different initial filesystems. -/
theorem C4_render_deterministic (req : ProvisioningRequest) (date hostname ts1 ts2 : String)
    (fs1 fs2 : Fs) :
    writesOf (renderStage req date hostname ts1 fs1).2 =
    writesOf (renderStage req date hostname ts2 fs2).2 := by
  rw [renderStage_writes, renderStage_writes]

/-! ## Event-classification lemmas for the pipeline claims -/

def isPromptEvent : Event → Bool
  | Event.prompt _ _ => true
  | _ => false

def isInstallAttemptEvent : Event → Bool
  | Event.installAttempt _ _ => true
  | _ => false

theorem prompt_not_write (e : Event) (he : isPromptEvent e = true) :
    isWriteEvent e = false := by
  cases e <;> simp_all [isPromptEvent, isWriteEvent]

theorem prompt_not_fatal (e : Event) (he : isPromptEvent e = true) :
    isFatalEvent e = false := by
  cases e <;> simp_all [isPromptEvent, isFatalEvent]

theorem prompt_not_mutation (e : Event) (he : isPromptEvent e = true) :
    (!isMutationEvent e) = true := by
  cases e <;> simp_all [isPromptEvent, isMutationEvent]

/-- The Input Collector emits prompt events only, and when it returns a
request it has prompted for all six fields. -/
theorem collectStage_cases (env : Env) :
    (collectStage env).1.all isPromptEvent = true ∧
    ((collectStage env).2 = none ∨ promptedAllSix (collectStage env).1 = true) := by
  unfold collectStage
  (repeat' split) <;> simp [isPromptEvent, promptedAllSix, prompted]

/-- System preparation writes no config file, attempts no package install,
and — when it succeeds — logs no fatal error. -/
theorem systemPrep_events (env : Env) :
    (systemPrepStage env).1.any isWriteEvent = false ∧
    (systemPrepStage env).1.any isInstallAttemptEvent = false ∧
    ((systemPrepStage env).2 = true →
      (systemPrepStage env).1.any isFatalEvent = false) := by
  unfold systemPrepStage
  by_cases h1 : env.dpkgFixOk <;> by_cases h2 : env.updateOk <;>
    by_cases h3 : env.updateRetryOk <;> by_cases h4 : env.upgradeOk <;>
    by_cases h5 : env.upgradeRetryOk <;> by_cases h6 : env.addRepoOk <;>
    simp [h1, h2, h3, h4, h5, h6, isWriteEvent, isInstallAttemptEvent, isFatalEvent]

/-- Complete characterization of one `install_package` run: success on the
first, second or third attempt, or three failures followed by the fatal
error — with the fixed `sleep 5` between consecutive attempts. -/
theorem install_package_trace (p : String) (ok : Nat → Bool) :
    install_package p ok = ([Event.installAttempt p 1], true) ∨
    install_package p ok =
      ([Event.installAttempt p 1, Event.sleep 5, Event.installAttempt p 2], true) ∨
    install_package p ok =
      ([Event.installAttempt p 1, Event.sleep 5, Event.installAttempt p 2, Event.sleep 5,
        Event.installAttempt p 3], true) ∨
    install_package p ok =
      ([Event.installAttempt p 1, Event.sleep 5, Event.installAttempt p 2, Event.sleep 5,
        Event.installAttempt p 3, Event.sleep 5,
        Event.fatal ("Failed to install " ++ p ++ " after max attempts")], false) := by
  unfold install_package
  cases h1 : ok 1 <;> cases h2 : ok 2 <;> cases h3 : ok 3 <;>
    simp [installAttemptsFrom, h1, h2, h3]

/-- When every attempt fails, `install_package` runs exactly three
attempts with the delay after each and ends with the fatal error. -/
theorem install_package_fails (p : String) (ok : Nat → Bool) (hfail : ∀ k, ok k = false) :
    install_package p ok =
      ([Event.installAttempt p 1, Event.sleep 5, Event.installAttempt p 2, Event.sleep 5,
        Event.installAttempt p 3, Event.sleep 5,
        Event.fatal ("Failed to install " ++ p ++ " after max attempts")], false) := by
  unfold install_package
  simp [installAttemptsFrom, hfail]

/-- Any install-attempt event of the package loop belongs to a package the
package database did not report installed, and its attempt number is
between 1 and 3. -/
theorem packageLoop_mem (inst : String → Bool) (ok : String → Nat → Bool)
    (l : List String) (q : String) (k : Nat)
    (h : Event.installAttempt q k ∈ (packageLoop inst ok l).1) :
    inst q = false ∧ 1 ≤ k ∧ k ≤ 3 := by
  induction l with
  | nil => simp [packageLoop] at h
  | cons r t ih =>
    simp only [packageLoop] at h
    by_cases hr : inst r
    · rw [if_pos hr] at h; exact ih h
    · rw [if_neg hr] at h
      have hrf : inst r = false := by simpa using hr
      rcases install_package_trace r (ok r) with h4 | h4 | h4 | h4 <;>
        simp only [h4] at h <;> simp at h
      · rcases h with ⟨rfl, rfl⟩ | h
        · exact ⟨hrf, by omega, by omega⟩
        · exact ih (by simpa using h)
      · rcases h with ⟨rfl, rfl⟩ | ⟨rfl, rfl⟩ | h
        · exact ⟨hrf, by omega, by omega⟩
        · exact ⟨hrf, by omega, by omega⟩
        · exact ih (by simpa using h)
      · rcases h with ⟨rfl, rfl⟩ | ⟨rfl, rfl⟩ | ⟨rfl, rfl⟩ | h
        · exact ⟨hrf, by omega, by omega⟩
        · exact ⟨hrf, by omega, by omega⟩
        · exact ⟨hrf, by omega, by omega⟩
        · exact ih (by simpa using h)
      · rcases h with ⟨rfl, rfl⟩ | ⟨rfl, rfl⟩ | ⟨rfl, rfl⟩
        · exact ⟨hrf, by omega, by omega⟩
        · exact ⟨hrf, by omega, by omega⟩
        · exact ⟨hrf, by omega, by omega⟩

/-- A package that is not installed and whose every install attempt fails
makes the package loop report failure. -/
theorem packageLoop_fatal (inst : String → Bool) (ok : String → Nat → Bool)
    (l : List String) (p : String) (hp : p ∈ l) (hni : inst p = false)
    (hfail : ∀ k, ok p k = false) :
    (packageLoop inst ok l).2 = false := by
  induction l with
  | nil => simp at hp
  | cons r t ih =>
    rcases List.mem_cons.mp hp with rfl | hmem
    · simp only [packageLoop, hni, Bool.false_eq_true, if_false]
      rw [install_package_fails p (ok p) hfail]
      simp
    · by_cases hr : inst r
      · simp only [packageLoop, if_pos hr]; exact ih hmem
      · simp only [packageLoop, if_neg hr]
        rcases install_package_trace r (ok r) with h4 | h4 | h4 | h4 <;>
          simp [h4, ih hmem]

/-- The package loop writes no config file. -/
theorem packageLoop_no_write (inst : String → Bool) (ok : String → Nat → Bool)
    (l : List String) :
    (packageLoop inst ok l).1.any isWriteEvent = false := by
  induction l with
  | nil => rfl
  | cons r t ih =>
    simp only [packageLoop]
    by_cases hr : inst r
    · simp [hr, ih]
    · rcases install_package_trace r (ok r) with h4 | h4 | h4 | h4 <;>
        simp [hr, h4, isWriteEvent, ih]

/-- A successful package loop logged no fatal error. -/
theorem packageLoop_success_no_fatal (inst : String → Bool) (ok : String → Nat → Bool)
    (l : List String) (h : (packageLoop inst ok l).2 = true) :
    (packageLoop inst ok l).1.any isFatalEvent = false := by
  induction l with
  | nil => rfl
  | cons r t ih =>
    simp only [packageLoop] at h ⊢
    by_cases hr : inst r
    · rw [if_pos hr] at h ⊢; exact ih h
    · rw [if_neg hr] at h ⊢
      rcases install_package_trace r (ok r) with h4 | h4 | h4 | h4 <;>
        simp only [h4] at h ⊢ <;> simp_all [isFatalEvent]

theorem backupConfig_no_fatal (ts p : String) (fs : Fs) :
    (backupConfig ts p fs).2.any isFatalEvent = false := by
  unfold backupConfig
  cases h : fsRead fs p <;> simp [isFatalEvent]

theorem renderStage_no_fatal (req : ProvisioningRequest) (date hostname ts : String)
    (fs0 : Fs) :
    (renderStage req date hostname ts fs0).2.any isFatalEvent = false := by
  simp only [renderStage]
  simp [List.any_append, backupConfig_no_fatal, isFatalEvent]

theorem serviceLoop_no_fatal (r e : String → Bool) (l : List String) :
    (serviceLoop r e l).any isFatalEvent = false := by
  induction l with
  | nil => rfl
  | cons s t ih =>
    by_cases hr : r s <;> by_cases he : e s <;>
      simp [serviceLoop, hr, he, isFatalEvent, ih]

theorem configTestStage_no_fatal (env : Env) :
    (configTestStage env).any isFatalEvent = false := by
  unfold configTestStage
  by_cases h1 : env.apacheTestOk <;> by_cases h2 : env.namedTestOk <;>
    simp [h1, h2, isFatalEvent]

/-- Every service in the list gets its restart and enable attempts, and a
failed restart or enable contributes its warning. -/
theorem serviceLoop_mem (r e : String → Bool) (l : List String) (s : String) (hs : s ∈ l) :
    Event.restart s ∈ serviceLoop r e l ∧ Event.enable s ∈ serviceLoop r e l ∧
    (r s = false → Event.warn ("Failed to restart " ++ s) ∈ serviceLoop r e l) ∧
    (e s = false → Event.warn ("Failed to enable " ++ s) ∈ serviceLoop r e l) := by
  induction l with
  | nil => simp at hs
  | cons x t ih =>
    rcases List.mem_cons.mp hs with rfl | hmem
    · refine ⟨by simp [serviceLoop], by simp [serviceLoop], fun h => ?_, fun h => ?_⟩
      · simp [serviceLoop, h]
      · simp [serviceLoop, h]
    · have hx := ih hmem
      simp only [serviceLoop]
      exact ⟨List.mem_append_right _ hx.1, List.mem_append_right _ hx.2.1,
             fun h => List.mem_append_right _ (hx.2.2.1 h),
             fun h => List.mem_append_right _ (hx.2.2.2 h)⟩

/-- Shape of a run whose package stage fails after successful collection
and preparation. -/
theorem runScript_pkgfail_shape (env : Env) (req : ProvisioningRequest)
    (hroot : env.isRoot = true) (hcol : (collectStage env).2 = some req)
    (hprep : (systemPrepStage env).2 = true)
    (hpkg : (packageLoop env.installed env.installOk packages).2 = false) :
    runScript env =
      ((collectStage env).1 ++ (systemPrepStage env).1 ++
        (packageLoop env.installed env.installOk packages).1, env.fs0, some 1) := by
  unfold runScript
  rcases hc : collectStage env with ⟨evs, o⟩
  rw [hc] at hcol
  simp only at hcol
  subst hcol
  simp [hroot, hc, hprep, hpkg]

/-- Shape of a fully successful run. -/
theorem runScript_success_shape (env : Env) (req : ProvisioningRequest)
    (hroot : env.isRoot = true) (hcol : (collectStage env).2 = some req)
    (hprep : (systemPrepStage env).2 = true)
    (hpkg : (packageLoop env.installed env.installOk packages).2 = true) :
    runScript env =
      ((collectStage env).1 ++ (systemPrepStage env).1 ++
        (packageLoop env.installed env.installOk packages).1 ++
        (renderStage req env.date env.hostname env.timeStamp env.fs0).2 ++
        serviceLoop env.restartOk env.enableOk services ++ configTestStage env,
       (renderStage req env.date env.hostname env.timeStamp env.fs0).1, some 0) := by
  unfold runScript
  rcases hc : collectStage env with ⟨evs, o⟩
  rw [hc] at hcol
  simp only at hcol
  subst hcol
  simp [hroot, hc, hprep, hpkg]

/-! ## Claim C3 — package-install retry policy -/

/-- C3: with a package the database does not report installed and whose
every install attempt fails, the run exits fatally with code 1 and renders
no config file; every install-attempt event in any part of the trace
belongs to a not-installed package and carries an attempt number between 1
and 3; and the failing package's install trace is exactly three attempts
separated by the fixed `sleep 5`, ending in the fatal error. -/
theorem C3_install_retry (env : Env) (req : ProvisioningRequest) (p : String)
    (hroot : env.isRoot = true) (hcol : (collectStage env).2 = some req)
    (hprep : (systemPrepStage env).2 = true)
    (hp : p ∈ packages) (hni : env.installed p = false)
    (hfail : ∀ k, env.installOk p k = false) :
    (runScript env).2.2 = some 1 ∧
    hasWrite (runScript env).1 = false ∧
    (∀ q k, Event.installAttempt q k ∈ (runScript env).1 →
      env.installed q = false ∧ 1 ≤ k ∧ k ≤ 3) ∧
    install_package p (env.installOk p) =
      ([Event.installAttempt p 1, Event.sleep 5, Event.installAttempt p 2, Event.sleep 5,
        Event.installAttempt p 3, Event.sleep 5,
        Event.fatal ("Failed to install " ++ p ++ " after max attempts")], false) := by
  have hpk := packageLoop_fatal env.installed env.installOk packages p hp hni hfail
  rw [runScript_pkgfail_shape env req hroot hcol hprep hpk]
  refine ⟨rfl, ?_, ?_, install_package_fails p _ hfail⟩
  · show ((collectStage env).1 ++ (systemPrepStage env).1 ++
      (packageLoop env.installed env.installOk packages).1).any isWriteEvent = false
    rw [List.any_append, List.any_append]
    rw [any_eq_false_of_all _ isPromptEvent isWriteEvent prompt_not_write
          (collectStage_cases env).1,
        (systemPrep_events env).1, packageLoop_no_write]
    rfl
  · intro q k hk
    simp only [List.mem_append] at hk
    rcases hk with (hk | hk) | hk
    · have := List.all_eq_true.mp (collectStage_cases env).1 _ hk
      simp [isPromptEvent] at this
    · have h2 := (systemPrep_events env).2.1
      rw [List.any_eq_false] at h2
      have := h2 _ hk
      simp [isInstallAttemptEvent] at this
    · exact packageLoop_mem _ _ _ _ _ hk

def envC3 : Env :=
  ⟨true, ["1.2.3.4"], ["d"], ["m"], ["p"], ["u"], ["s"],
   true, true, true, true, true, true,
   fun _ => false, fun _ _ => false,
   "20251012", "20251012_090000", "ubuntu", [],
   fun _ => true, fun _ => true, true, true⟩

/-- Witness for C3: a run in which no package is installed and every
attempt fails exits with code 1 having written nothing. -/
theorem C3_witness :
    (runScript envC3).2.2 = some 1 ∧ hasWrite (runScript envC3).1 = false := by
  have h := C3_install_retry envC3 ⟨"1.2.3.4", "d", "m", "p", "u", "s"⟩ "bind9"
    rfl (by decide) (by decide) (by decide) rfl (fun k => rfl)
  exact ⟨h.1, h.2.1⟩

/-! ## Claim C7 — Service Reconciler warnings only -/

/-- C7: once the package stage has succeeded, the run exits 0 and logs no
fatal error regardless of the restart, enable and config-test outcomes;
every managed service gets both its restart and its enable attempt; each
individual restart or enable failure contributes only a warning; and a
failing config syntax check likewise contributes only a warning. -/
theorem C7_service_reconciler (env : Env) (req : ProvisioningRequest)
    (hroot : env.isRoot = true) (hcol : (collectStage env).2 = some req)
    (hprep : (systemPrepStage env).2 = true)
    (hpkg : (packageLoop env.installed env.installOk packages).2 = true) :
    (runScript env).2.2 = some 0 ∧
    hasFatal (runScript env).1 = false ∧
    (∀ s ∈ services, Event.restart s ∈ (runScript env).1 ∧
      Event.enable s ∈ (runScript env).1 ∧
      (env.restartOk s = false →
        Event.warn ("Failed to restart " ++ s) ∈ (runScript env).1) ∧
      (env.enableOk s = false →
        Event.warn ("Failed to enable " ++ s) ∈ (runScript env).1)) ∧
    (env.apacheTestOk = false →
      Event.warn "Apache config test failed" ∈ (runScript env).1) ∧
    (env.namedTestOk = false →
      Event.warn "BIND config test failed" ∈ (runScript env).1) := by
  rw [runScript_success_shape env req hroot hcol hprep hpkg]
  refine ⟨rfl, ?_, ?_, fun h => ?_, fun h => ?_⟩
  · show ((collectStage env).1 ++ (systemPrepStage env).1 ++
      (packageLoop env.installed env.installOk packages).1 ++
      (renderStage req env.date env.hostname env.timeStamp env.fs0).2 ++
      serviceLoop env.restartOk env.enableOk services ++
      configTestStage env).any isFatalEvent = false
    rw [List.any_append, List.any_append, List.any_append, List.any_append, List.any_append]
    rw [any_eq_false_of_all _ isPromptEvent isFatalEvent prompt_not_fatal
          (collectStage_cases env).1,
        (systemPrep_events env).2.2 hprep,
        packageLoop_success_no_fatal _ _ _ hpkg,
        renderStage_no_fatal, serviceLoop_no_fatal, configTestStage_no_fatal]
    rfl
  · intro s hs
    have hsvc := serviceLoop_mem env.restartOk env.enableOk services s hs
    exact ⟨List.mem_append_left _ (List.mem_append_right _ hsvc.1),
           List.mem_append_left _ (List.mem_append_right _ hsvc.2.1),
           fun h => List.mem_append_left _ (List.mem_append_right _ (hsvc.2.2.1 h)),
           fun h => List.mem_append_left _ (List.mem_append_right _ (hsvc.2.2.2 h))⟩
  · refine List.mem_append_right _ ?_
    simp [configTestStage, h]
  · refine List.mem_append_right _ ?_
    simp [configTestStage, h]

def envC7 : Env :=
  ⟨true, ["1.2.3.4"], ["d"], ["m"], ["p"], ["u"], ["s"],
   true, true, true, true, true, true,
   fun _ => false, fun _ _ => true,
   "20251012", "20251012_090000", "ubuntu", [],
   fun s => !(s == "apache2"), fun _ => true, true, true⟩

/-- Witness for C7: even with the web-server restart failing, the run
exits 0. -/
theorem C7_witness : (runScript envC7).2.2 = some 0 :=
  (C7_service_reconciler envC7 ⟨"1.2.3.4", "d", "m", "p", "u", "s"⟩
    rfl (by decide) (by decide) (by decide)).1

/-! ## Claim C8 — full collection before any mutation -/

/-- C8: every run's trace splits into a mutation-free prefix and a
remainder, and whenever the remainder performs any host mutation, the
prefix already contains prompts for all six fields — the request is fully
collected and validated before any package-manager, filesystem, service
or account mutation. -/
theorem C8_inputs_before_mutations (env : Env) :
    ∃ pre post, (runScript env).1 = pre ++ post ∧
      (pre.all (fun e => !isMutationEvent e) &&
        (!post.any isMutationEvent || promptedAllSix pre)) = true := by
  unfold runScript
  by_cases hroot : env.isRoot
  · rcases hc : collectStage env with ⟨evs, o⟩
    have hcc := collectStage_cases env
    rw [hc] at hcc
    have hall : evs.all (fun e => !isMutationEvent e) = true :=
      all_implies _ _ _ prompt_not_mutation hcc.1
    cases o with
    | none =>
      refine ⟨evs, [], by simp [hroot, hc], ?_⟩
      simp [hall]
    | some req =>
      have hsix : promptedAllSix evs = true := by
        rcases hcc.2 with h | h
        · simp at h
        · exact h
      by_cases h1 : (systemPrepStage env).2
      · by_cases h2 : (packageLoop env.installed env.installOk packages).2
        · refine ⟨evs,
            (systemPrepStage env).1 ++
              ((packageLoop env.installed env.installOk packages).1 ++
                ((renderStage req env.date env.hostname env.timeStamp env.fs0).2 ++
                  (serviceLoop env.restartOk env.enableOk services ++ configTestStage env))),
            ?_, ?_⟩
          · simp [hroot, hc, h1, h2, List.append_assoc]
          · simp [hall, hsix]
        · refine ⟨evs,
            (systemPrepStage env).1 ++ (packageLoop env.installed env.installOk packages).1,
            ?_, ?_⟩
          · simp [hroot, hc, h1, h2, List.append_assoc]
          · simp [hall, hsix]
      · refine ⟨evs, (systemPrepStage env).1, ?_, ?_⟩
        · simp [hroot, hc, h1, List.append_assoc]
        · simp [hall, hsix]
  · refine ⟨[Event.fatal "Script must be run with sudo"], [], ?_, by decide⟩
    simp [hroot]

end Portfolio
